import Mathlib

/-!
# Verification of the `lonewolf-auth-toolkit` MFA module

Shallow embedding of `src/mfa/mod.rs`, a thin wrapper over the external
`totp_rs` crate (RFC 6238 / RFC 4226, HMAC-SHA-1).  Bytes are modelled as
`Nat` values below 256, byte strings as `List Nat`; 32-bit machine
arithmetic is `Nat` arithmetic taken modulo `2 ^ 32`.

The wrapper's own code (`generate_random_string`, `generate`, `verify`) is
translated directly from the source.  The external collaborators it calls
are modelled as follows:

* the `totp_rs` RFC 6238 builder and HMAC-SHA-1 token generator are
  embedded executably (SHA-1 per FIPS 180-4, HMAC per RFC 2104, dynamic
  truncation per RFC 4226, counter = `time / step` per RFC 6238);
* the random byte source (`rand::thread_rng`) and the system clock are
  passed in as explicit arguments;
* the QR renderer (`TOTP::get_qr_base64`) is passed in as an explicit
  fallible function argument, since the spec treats it as an external
  collaborator that is depended upon but not reimplemented.
-/

namespace Mfa

/-! ## SHA-1 (FIPS 180-4), over lists of byte-sized naturals -/

/-- Truncate to a 32-bit word. -/
def w32 (x : Nat) : Nat := x % 4294967296

/-- Left rotation of a 32-bit word by `n` places. -/
def rotl (n x : Nat) : Nat := w32 ((x <<< n) ||| (x >>> (32 - n)))

/-- Big-endian 4-byte serialization of a 32-bit word. -/
def be32 (x : Nat) : List Nat :=
  [(x >>> 24) &&& 255, (x >>> 16) &&& 255, (x >>> 8) &&& 255, x &&& 255]

/-- Big-endian 8-byte serialization of a 64-bit word. -/
def be64 (x : Nat) : List Nat :=
  [(x >>> 56) &&& 255, (x >>> 48) &&& 255, (x >>> 40) &&& 255, (x >>> 32) &&& 255,
   (x >>> 24) &&& 255, (x >>> 16) &&& 255, (x >>> 8) &&& 255, x &&& 255]

/-- SHA-1 padding: append `0x80`, zero bytes to 56 mod 64, then the 64-bit
big-endian bit length. -/
def padMessage (msg : List Nat) : List Nat :=
  msg ++ [0x80] ++ List.replicate ((119 - msg.length % 64) % 64) 0 ++ be64 (8 * msg.length)

/-- Group a byte list into big-endian 32-bit words. -/
def toWords : List Nat → List Nat
  | b0 :: b1 :: b2 :: b3 :: rest =>
      ((b0 <<< 24) ||| (b1 <<< 16) ||| (b2 <<< 8) ||| b3) :: toWords rest
  | _ => []

/-- Extend a 16-word block schedule by `k` further words
(`W_t = rotl 1 (W_(t-3) xor W_(t-8) xor W_(t-14) xor W_(t-16))`). -/
def extendSchedule : Nat → List Nat → List Nat
  | 0, acc => acc
  | Nat.succ k, acc =>
      let n := acc.length
      extendSchedule k (acc ++
        [rotl 1 (acc.getD (n - 3) 0 ^^^ acc.getD (n - 8) 0 ^^^
                 acc.getD (n - 14) 0 ^^^ acc.getD (n - 16) 0)])

/-- The five-word SHA-1 working state. -/
structure Sha1State where
  a : Nat
  b : Nat
  c : Nat
  d : Nat
  e : Nat
deriving Repr, DecidableEq

/-- The SHA-1 initial hash value. -/
def sha1Init : Sha1State :=
  ⟨0x67452301, 0xEFCDAB89, 0x98BADCFE, 0x10325476, 0xC3D2E1F0⟩

/-- The SHA-1 round function `f_t`. -/
def sha1F (t b c d : Nat) : Nat :=
  if t < 20 then (b &&& c) ||| ((b ^^^ 0xFFFFFFFF) &&& d)
  else if t < 40 then b ^^^ c ^^^ d
  else if t < 60 then (b &&& c) ||| (b &&& d) ||| (c &&& d)
  else b ^^^ c ^^^ d

/-- The SHA-1 round constant `K_t`. -/
def sha1K (t : Nat) : Nat :=
  if t < 20 then 0x5A827999
  else if t < 40 then 0x6ED9EBA1
  else if t < 60 then 0x8F1BBCDC
  else 0xCA62C1D6

/-- One SHA-1 round at index `t` with schedule word `wt`. -/
def sha1Round (t wt : Nat) (s : Sha1State) : Sha1State :=
  ⟨w32 (rotl 5 s.a + sha1F t s.b s.c s.d + s.e + sha1K t + wt),
   s.a, rotl 30 s.b, s.c, s.d⟩

/-- Run the 80 SHA-1 rounds over the word schedule. -/
def sha1Rounds : List Nat → Nat → Sha1State → Sha1State
  | [], _, s => s
  | wt :: ws, t, s => sha1Rounds ws (t + 1) (sha1Round t wt s)

/-- Compress one 64-byte block into the running hash state. -/
def sha1Compress (h : Sha1State) (block : List Nat) : Sha1State :=
  let s := sha1Rounds (extendSchedule 64 (toWords block)) 0 h
  ⟨w32 (h.a + s.a), w32 (h.b + s.b), w32 (h.c + s.c), w32 (h.d + s.d), w32 (h.e + s.e)⟩

/-- Fold the compression function over consecutive 64-byte blocks, one byte
at a time (`buf` is the current partial block; the padded message length is
a multiple of 64, so the final buffer is empty). -/
def sha1Absorb (h : Sha1State) (buf : List Nat) : List Nat → Sha1State
  | [] => h
  | x :: xs =>
      if buf.length = 63 then sha1Absorb (sha1Compress h (buf ++ [x])) [] xs
      else sha1Absorb h (buf ++ [x]) xs

/-- SHA-1 of a byte list, as a 20-byte list. -/
def sha1 (msg : List Nat) : List Nat :=
  let s := sha1Absorb sha1Init [] (padMessage msg)
  be32 s.a ++ be32 s.b ++ be32 s.c ++ be32 s.d ++ be32 s.e

/-! ## HMAC-SHA-1 (RFC 2104) and HOTP/TOTP (RFC 4226 / RFC 6238) -/

/-- HMAC-SHA-1 with block size 64. -/
def hmacSha1 (key msg : List Nat) : List Nat :=
  let k0 := if 64 < key.length then sha1 key else key
  let k := k0 ++ List.replicate (64 - k0.length) 0
  sha1 ((k.map fun b => b ^^^ 0x5C) ++ sha1 ((k.map fun b => b ^^^ 0x36) ++ msg))

/-- Zero-pad a decimal rendering on the left to `digits` characters,
as Rust's `format!("{1:00$}", digits, value)` does. -/
def formatCode (digits value : Nat) : String :=
  let s := toString value
  String.mk (List.replicate (digits - s.length) '0') ++ s

/-- The HOTP value (RFC 4226 dynamic truncation, as implemented by
`totp_rs::TOTP::generate` for the SHA-1 algorithm): HMAC-SHA-1 of the
8-byte big-endian counter, 4 bytes read big-endian at the offset given by
the low nibble of the last (20th) byte of the MAC, masked to 31 bits,
reduced mod `10 ^ digits`, zero-padded. -/
def hotpCode (secret : List Nat) (counter digits : Nat) : String :=
  let hs := hmacSha1 secret (be64 counter)
  let offset := hs.getD 19 0 &&& 15
  let bin := ((hs.getD offset 0 <<< 24) ||| (hs.getD (offset + 1) 0 <<< 16) |||
              (hs.getD (offset + 2) 0 <<< 8) ||| hs.getD (offset + 3) 0) &&& 0x7FFFFFFF
  formatCode digits (bin % 10 ^ digits)

/-! ## Strings as byte sequences

Rust `String::into_bytes` yields the UTF-8 encoding of the string; both
`generate` and `verify` call `secret.clone().into_bytes().to_vec()`. -/

/-- UTF-8 encoding of one Unicode scalar value. -/
def utf8EncodeCharNat (c : Nat) : List Nat :=
  if c < 0x80 then [c]
  else if c < 0x800 then
    [0xC0 ||| (c >>> 6), 0x80 ||| (c &&& 0x3F)]
  else if c < 0x10000 then
    [0xE0 ||| (c >>> 12), 0x80 ||| ((c >>> 6) &&& 0x3F), 0x80 ||| (c &&& 0x3F)]
  else
    [0xF0 ||| (c >>> 18), 0x80 ||| ((c >>> 12) &&& 0x3F),
     0x80 ||| ((c >>> 6) &&& 0x3F), 0x80 ||| (c &&& 0x3F)]

/-- The UTF-8 bytes of a string (`String::into_bytes`). -/
def strBytes (s : String) : List Nat :=
  (s.data.map fun c => utf8EncodeCharNat c.toNat).flatten

/-! ## The `totp_rs` RFC 6238 builder and TOTP object

Modelled from `totp_rs` (the crate the source depends on): `Rfc6238` is a
record of secret bytes, digit count and labels; `with_defaults` fixes
6 digits and rejects secrets shorter than 128 bits; `TOTP::from_rfc6238`
builds a `TOTP` with the SHA-1 algorithm, skew 1 and a 30-second step, and
rejects short secrets and labels containing `':'` (which could not be
round-tripped through an `otpauth://` URL). -/

/-- Errors surfaced by the wrapper (Rust `anyhow::Error` values, separated
here by origin). -/
inductive MfaError where
  | secretTooSmall
  | unacceptableDigit
  | invalidIssuer
  | invalidAccountName
  | clockBeforeEpoch
  | qrError (msg : String)
deriving Repr, DecidableEq

/-- The hash algorithms offered by `totp_rs::Algorithm`. -/
inductive Algorithm where
  | SHA1
  | SHA256
  | SHA512
deriving Repr, DecidableEq

/-- `totp_rs::Rfc6238`, the RFC 6238 configuration builder. -/
structure Rfc6238 where
  secret : List Nat
  digits : Nat
  issuer : Option String
  account_name : String
deriving Repr, DecidableEq

/-- `totp_rs::rfc::assert_digits`: RFC 6238 digit counts are 6 to 8. -/
def assert_digits (digits : Nat) : Except MfaError Unit :=
  if 6 ≤ digits ∧ digits ≤ 8 then .ok () else .error .unacceptableDigit

/-- `totp_rs::rfc::assert_secret_length`: RFC 6238 secrets carry at least
128 bits (16 bytes). -/
def assert_secret_length (secret : List Nat) : Except MfaError Unit :=
  if secret.length < 16 then .error .secretTooSmall else .ok ()

/-- `Rfc6238::with_defaults(secret)`: 6 digits, empty issuer and account
labels, checked digit count and secret length. -/
def Rfc6238.with_defaults (secret : List Nat) : Except MfaError Rfc6238 := do
  assert_digits 6
  assert_secret_length secret
  .ok ⟨secret, 6, some "", ""⟩

/-- `Rfc6238::digits(value)`: set the digit count after re-checking it
(named `setDigits` here because `digits` is the field name). -/
def Rfc6238.setDigits (rfc : Rfc6238) (value : Nat) : Except MfaError Rfc6238 := do
  assert_digits value
  .ok { rfc with digits := value }

/-- `Rfc6238::issuer(value)`: infallible setter. -/
def Rfc6238.setIssuer (rfc : Rfc6238) (value : String) : Rfc6238 :=
  { rfc with issuer := some value }

/-- `Rfc6238::account_name(value)`: infallible setter. -/
def Rfc6238.setAccountName (rfc : Rfc6238) (value : String) : Rfc6238 :=
  { rfc with account_name := value }

/-- `totp_rs::TOTP`. -/
structure TOTP where
  algorithm : Algorithm
  digits : Nat
  skew : Nat
  step : Nat
  secret : List Nat
  issuer : Option String
  account_name : String
deriving Repr, DecidableEq

/-- Whether a label contains `':'` (forbidden in `otpauth://` labels). -/
def containsColon (s : String) : Bool := s.data.contains ':'

/-- `TOTP::new`: validates the secret length and the labels. -/
def TOTP.new (algorithm : Algorithm) (digits skew step : Nat) (secret : List Nat)
    (issuer : Option String) (account_name : String) : Except MfaError TOTP :=
  if secret.length < 16 then .error .secretTooSmall
  else if (issuer.map containsColon).getD false then .error .invalidIssuer
  else if containsColon account_name then .error .invalidAccountName
  else .ok ⟨algorithm, digits, skew, step, secret, issuer, account_name⟩

/-- `TOTP::from_rfc6238(rfc)`: SHA-1 algorithm, skew 1, 30-second step. -/
def TOTP.from_rfc6238 (rfc : Rfc6238) : Except MfaError TOTP :=
  TOTP.new .SHA1 rfc.digits 1 30 rfc.secret rfc.issuer rfc.account_name

/-- `TOTP::generate(time)`: the HOTP value of counter `⌊(time − 0) / step⌋`
(the RFC 6238 starting epoch is 0: `time` is used as seconds since the Unix
epoch with nothing subtracted).  The wrapper under verification only ever
constructs SHA-1 configurations (see the C8 theorem), so only the SHA-1
signing branch of `totp_rs` is embedded. -/
def TOTP.generate (totp : TOTP) (time : Nat) : String :=
  hotpCode totp.secret (time / totp.step) totp.digits

/-! ## The wrapper itself: `src/mfa/mod.rs`

`rand::thread_rng` and the system clock are explicit arguments; the QR
renderer `TOTP::get_qr_base64` (an external collaborator producing a
base64 image from the configuration's `otpauth://` URL) is an explicit
fallible function argument. -/

/-- `generate_random_string()`: hex-encode the random bytes, two lowercase
hex characters per byte (`format!("{:02x}", b)`). -/
def hexDigitChar (n : Nat) : Char :=
  if n < 10 then Char.ofNat (48 + n) else Char.ofNat (87 + n)

/-- The two hex characters of one byte. -/
def byteToHex (b : Nat) : List Char := [hexDigitChar (b / 16), hexDigitChar (b % 16)]

/-- `generate_random_string()`, with the 32 drawn random bytes passed in. -/
def generate_random_string (random_bytes : List Nat) : String :=
  String.mk (random_bytes.map byteToHex).flatten

/-- `SystemTime::now().duration_since(UNIX_EPOCH)?.as_secs()`: the clock
reading is passed in as whole seconds relative to the Unix epoch; a reading
before the epoch is the `Err` case of `duration_since`. -/
def readClock (now : Int) : Except MfaError Nat :=
  if now < 0 then .error .clockBeforeEpoch else .ok now.toNat

/-- `generate(issuer, account_name)`, with the random bytes and the QR
renderer passed in. -/
def generate (issuer account_name : String) (random_bytes : List Nat)
    (get_qr_base64 : TOTP → Except String String) :
    Except MfaError (String × String) := do
  let secret_string := generate_random_string random_bytes
  let rfc ← Rfc6238.with_defaults (strBytes secret_string)
  let rfc ← rfc.setDigits 6
  let rfc := rfc.setIssuer issuer
  let rfc := rfc.setAccountName account_name
  let totp ← TOTP.from_rfc6238 rfc
  match get_qr_base64 totp with
  | .ok qr_code => .ok (qr_code, secret_string)
  | .error error => .error (.qrError error)

/-- `verify(code, secret)`, with the clock reading passed in. -/
def verify (code : String) (secret : String) (now : Int) : Except MfaError Bool := do
  let rfc ← Rfc6238.with_defaults (strBytes secret)
  let rfc ← rfc.setDigits 6
  let totp ← TOTP.from_rfc6238 rfc
  let time ← readClock now
  let token := totp.generate time
  return code == token

/-! ## Derived views of the two operations

`verifyTotp` and `generateTotp` name the RFC 6238 configuration phase that
`verify` and `generate` run before using the clock or the QR renderer; the
decomposition lemmas below prove that the two operations factor through
them exactly. -/

/-- The TOTP configuration `verify` builds from a secret string. -/
def verifyTotp (secret : String) : Except MfaError TOTP := do
  let rfc ← Rfc6238.with_defaults (strBytes secret)
  let rfc ← rfc.setDigits 6
  TOTP.from_rfc6238 rfc

/-- The TOTP configuration `generate` builds from its random bytes. -/
def generateTotp (issuer account_name : String) (random_bytes : List Nat) :
    Except MfaError TOTP := do
  let rfc ← Rfc6238.with_defaults (strBytes (generate_random_string random_bytes))
  let rfc ← rfc.setDigits 6
  let rfc := rfc.setIssuer issuer
  let rfc := rfc.setAccountName account_name
  TOTP.from_rfc6238 rfc

/-- `verify` is: build the configuration, read the clock, compare the code
against the token of the current time step. -/
theorem verify_decomp (code secret : String) (now : Int) :
    verify code secret now =
      match verifyTotp secret with
      | .error e => .error e
      | .ok totp =>
        match readClock now with
        | .error e => .error e
        | .ok time => .ok (code == totp.generate time) := by
  unfold verify verifyTotp Rfc6238.with_defaults Rfc6238.setDigits
    assert_digits assert_secret_length TOTP.from_rfc6238 TOTP.new readClock
  have hc : containsColon "" = false := rfl
  by_cases hlen : (strBytes secret).length < 16 <;>
    by_cases hclk : now < 0 <;>
      simp [hlen, hclk, hc, Bind.bind, Except.bind, Pure.pure, Except.pure]

/-- `generate` is: build the configuration, render the QR code, return the
image together with the hex secret string. -/
theorem generate_decomp (issuer account_name : String) (random_bytes : List Nat)
    (get_qr_base64 : TOTP → Except String String) :
    generate issuer account_name random_bytes get_qr_base64 =
      match generateTotp issuer account_name random_bytes with
      | .error e => .error e
      | .ok totp =>
        match get_qr_base64 totp with
        | .ok qr_code => .ok (qr_code, generate_random_string random_bytes)
        | .error error => .error (.qrError error) := by
  unfold generate generateTotp Rfc6238.with_defaults Rfc6238.setDigits
    Rfc6238.setIssuer Rfc6238.setAccountName
    assert_digits assert_secret_length TOTP.from_rfc6238 TOTP.new
  by_cases hlen : (strBytes (generate_random_string random_bytes)).length < 16 <;>
    by_cases hiss : containsColon issuer <;>
      by_cases hacc : containsColon account_name <;>
        simp [hlen, hiss, hacc, Bind.bind, Except.bind, Pure.pure, Except.pure]

/-- The configuration `verify` builds: the only failure is a secret of
fewer than 16 bytes; on success the `TOTP` holds exactly the UTF-8 bytes
of the secret string, 6 digits, SHA-1, skew 1 and step 30. -/
theorem verifyTotp_eq (secret : String) :
    verifyTotp secret =
      if (strBytes secret).length < 16 then .error .secretTooSmall
      else .ok ⟨.SHA1, 6, 1, 30, strBytes secret, some "", ""⟩ := by
  unfold verifyTotp Rfc6238.with_defaults Rfc6238.setDigits assert_digits
    assert_secret_length TOTP.from_rfc6238 TOTP.new
  have hc : containsColon "" = false := rfl
  by_cases hlen : (strBytes secret).length < 16 <;>
    simp [hlen, hc, Bind.bind, Except.bind, Pure.pure, Except.pure]

/-- The configuration `generate` builds from its random bytes. -/
theorem generateTotp_eq (issuer account_name : String) (random_bytes : List Nat) :
    generateTotp issuer account_name random_bytes =
      if (strBytes (generate_random_string random_bytes)).length < 16 then
        .error .secretTooSmall
      else if containsColon issuer then .error .invalidIssuer
      else if containsColon account_name then .error .invalidAccountName
      else .ok ⟨.SHA1, 6, 1, 30, strBytes (generate_random_string random_bytes),
                some issuer, account_name⟩ := by
  unfold generateTotp Rfc6238.with_defaults Rfc6238.setDigits
    Rfc6238.setIssuer Rfc6238.setAccountName
    assert_digits assert_secret_length TOTP.from_rfc6238 TOTP.new
  by_cases hlen : (strBytes (generate_random_string random_bytes)).length < 16 <;>
    by_cases hiss : containsColon issuer <;>
      by_cases hacc : containsColon account_name <;>
        simp [hlen, hiss, hacc, Bind.bind, Except.bind, Pure.pure, Except.pure]

/-- On a well-formed secret and a clock at or after the epoch, `verify`
returns `Ok` of the string comparison of the submitted code against the
HOTP value of counter `⌊now / 30⌋`. -/
theorem verify_eq (code secret : String) (now : Int)
    (h16 : 16 ≤ (strBytes secret).length) (h0 : 0 ≤ now) :
    verify code secret now =
      .ok (code == hotpCode (strBytes secret) (now.toNat / 30) 6) := by
  rw [verify_decomp, verifyTotp_eq]
  simp [Nat.not_lt.mpr h16, readClock, not_lt.mpr h0, TOTP.generate]

/-! ## The hex alphabet -/

/-- Membership in `[0-9a-f]`. -/
def isHexDigit (c : Char) : Bool := (('0' ≤ c) && (c ≤ '9')) || (('a' ≤ c) && (c ≤ 'f'))

/-- The value of one `[0-9a-f]` character. -/
def hexCharVal (c : Char) : Nat := if c.toNat ≤ 57 then c.toNat - 48 else c.toNat - 87

/-- Decode a hex string back into bytes, two characters per byte. -/
def hexDecode : List Char → List Nat
  | c1 :: c2 :: rest => (16 * hexCharVal c1 + hexCharVal c2) :: hexDecode rest
  | _ => []

theorem hexDigitChar_isHexDigit (n : Nat) (h : n < 16) :
    isHexDigit (hexDigitChar n) = true := by
  interval_cases n <;> decide

theorem hexCharVal_hexDigitChar (n : Nat) (h : n < 16) :
    hexCharVal (hexDigitChar n) = n := by
  interval_cases n <;> decide

theorem flatten_map_byteToHex_length (l : List Nat) :
    ((l.map byteToHex).flatten).length = 2 * l.length := by
  induction l with
  | nil => rfl
  | cons x xs ih => simp [byteToHex, ih]; omega

theorem hexDecode_flatten_map_byteToHex (l : List Nat) (hb : ∀ b ∈ l, b < 256) :
    hexDecode ((l.map byteToHex).flatten) = l := by
  induction l with
  | nil => rfl
  | cons x xs ih =>
      have hx : x < 256 := hb x (by simp)
      have h1 : hexCharVal (hexDigitChar (x / 16)) = x / 16 :=
        hexCharVal_hexDigitChar _ (by omega)
      have h2 : hexCharVal (hexDigitChar (x % 16)) = x % 16 :=
        hexCharVal_hexDigitChar _ (by omega)
      have ih2 := ih fun b hbm => hb b (List.mem_cons_of_mem _ hbm)
      simp [byteToHex, hexDecode, h1, h2, ih2]
      omega

/-! ## ASCII facts about the hex encoding -/

theorem utf8_ascii (c : Nat) (h : c < 128) : utf8EncodeCharNat c = [c] := by
  unfold utf8EncodeCharNat
  rw [if_pos h]

theorem utf8_flatten_ascii (cs : List Char) (h : ∀ c ∈ cs, c.toNat < 128) :
    (cs.map fun c => utf8EncodeCharNat c.toNat).flatten = cs.map Char.toNat := by
  induction cs with
  | nil => rfl
  | cons c cs ih =>
      simp [utf8_ascii c.toNat (h c (by simp)), ih fun d hd => h d (by simp [hd])]

theorem mem_flatten_byteToHex (l : List Nat) (hb : ∀ b ∈ l, b < 256) (c : Char)
    (hc : c ∈ (l.map byteToHex).flatten) : ∃ n, n < 16 ∧ c = hexDigitChar n := by
  rw [List.mem_flatten] at hc
  obtain ⟨bl, hbl, hcbl⟩ := hc
  rw [List.mem_map] at hbl
  obtain ⟨b, hbmem, rfl⟩ := hbl
  have hblt := hb b hbmem
  simp [byteToHex] at hcbl
  rcases hcbl with rfl | rfl
  · exact ⟨b / 16, by omega, rfl⟩
  · exact ⟨b % 16, by omega, rfl⟩

theorem hexDigitChar_toNat_lt (n : Nat) (h : n < 16) : (hexDigitChar n).toNat < 128 := by
  interval_cases n <;> decide

theorem grs_data (random_bytes : List Nat) :
    (generate_random_string random_bytes).data = (random_bytes.map byteToHex).flatten := rfl

theorem strBytes_grs (random_bytes : List Nat) (hb : ∀ b ∈ random_bytes, b < 256) :
    strBytes (generate_random_string random_bytes) =
      ((random_bytes.map byteToHex).flatten).map Char.toNat := by
  unfold strBytes
  rw [grs_data]
  apply utf8_flatten_ascii
  intro c hc
  obtain ⟨n, hn, rfl⟩ := mem_flatten_byteToHex _ hb c hc
  exact hexDigitChar_toNat_lt n hn

theorem strBytes_grs_length (random_bytes : List Nat) (hb : ∀ b ∈ random_bytes, b < 256) :
    (strBytes (generate_random_string random_bytes)).length = 2 * random_bytes.length := by
  rw [strBytes_grs random_bytes hb, List.length_map, flatten_map_byteToHex_length]

/-! ## Elimination forms of the configuration phase -/

deriving instance DecidableEq for Except

theorem verifyTotp_ok_elim (secret : String) (totp : TOTP)
    (h : verifyTotp secret = .ok totp) :
    16 ≤ (strBytes secret).length ∧
    totp = ⟨.SHA1, 6, 1, 30, strBytes secret, some "", ""⟩ := by
  rw [verifyTotp_eq] at h
  by_cases hlen : (strBytes secret).length < 16
  · simp [hlen] at h
  · simp [hlen] at h
    exact ⟨Nat.not_lt.mp hlen, h.symm⟩

theorem generateTotp_ok_elim (issuer account_name : String) (random_bytes : List Nat)
    (totp : TOTP) (h : generateTotp issuer account_name random_bytes = .ok totp) :
    16 ≤ (strBytes (generate_random_string random_bytes)).length ∧
    totp = ⟨.SHA1, 6, 1, 30, strBytes (generate_random_string random_bytes),
            some issuer, account_name⟩ := by
  rw [generateTotp_eq] at h
  by_cases hlen : (strBytes (generate_random_string random_bytes)).length < 16
  · simp [hlen] at h
  · by_cases hiss : containsColon issuer <;>
      by_cases hacc : containsColon account_name <;>
        simp [hlen, hiss, hacc] at h
    exact ⟨Nat.not_lt.mp hlen, h.symm⟩

theorem generate_ok_elim (issuer account_name : String) (random_bytes : List Nat)
    (get_qr_base64 : TOTP → Except String String) (img s : String)
    (h : generate issuer account_name random_bytes get_qr_base64 = .ok (img, s)) :
    s = generate_random_string random_bytes ∧
    ∃ totp, generateTotp issuer account_name random_bytes = .ok totp ∧
      get_qr_base64 totp = .ok img := by
  rw [generate_decomp] at h
  cases hg : generateTotp issuer account_name random_bytes with
  | error e => rw [hg] at h; simp at h
  | ok totp =>
      rw [hg] at h
      dsimp only at h
      cases hq : get_qr_base64 totp with
      | ok q =>
          rw [hq] at h
          dsimp only at h
          simp at h
          exact ⟨h.2.symm, totp, rfl, by rw [hq, h.1]⟩
      | error e => rw [hq] at h; dsimp only at h; simp at h

/-! ## Known-answer sanity checks for the embedded primitives -/

set_option maxRecDepth 40000

/-- FIPS 180-4 known-answer test: SHA-1 of the ASCII bytes of `abc`. -/
theorem sha1_abc : sha1 [0x61, 0x62, 0x63] =
    [0xA9, 0x99, 0x3E, 0x36, 0x47, 0x06, 0x81, 0x6A, 0xBA, 0x3E, 0x25, 0x71,
     0x78, 0x50, 0xC2, 0x6C, 0x9C, 0xD0, 0xD8, 0x9D] := by decide

/-- RFC 6238 Appendix B test vector: SHA-1, time 59, ASCII secret
`12345678901234567890`, low 6 digits of `94287082`. -/
theorem totp_vector_59 :
    hotpCode (strBytes "12345678901234567890") (59 / 30) 6 = "287082" := by decide

/-! ## The claims -/

/-- C1: for every code string and secret string for which the RFC 6238
configuration builds and the clock reads successfully, `verify` returns
`Ok true` exactly when the code equals — by exact string equality, with no
normalization — the TOTP code of the current wall-clock time, and
`Ok false` otherwise. -/
theorem verify_is_exact_string_match_of_current_code
    (code secret : String) (now : Int) (totp : TOTP)
    (hcfg : verifyTotp secret = .ok totp) (hclk : 0 ≤ now) :
    (verify code secret now = .ok true ↔ code = totp.generate now.toNat) ∧
    (code ≠ totp.generate now.toNat → verify code secret now = .ok false) := by
  obtain ⟨h16, htot⟩ := verifyTotp_ok_elim secret totp hcfg
  subst htot
  rw [verify_eq code secret now h16 hclk]
  constructor
  · simp [TOTP.generate]
  · intro hne
    simp only [TOTP.generate] at hne
    simp [TOTP.generate, beq_eq_false_iff_ne.mpr hne]

theorem verify_is_exact_string_match_of_current_code_witness :
    verifyTotp "12345678901234567890" =
      .ok ⟨.SHA1, 6, 1, 30, strBytes "12345678901234567890", some "", ""⟩ ∧
    (0 : Int) ≤ 59 ∧
    (verify "287082" "12345678901234567890" 59 = .ok true ↔
      "287082" = TOTP.generate
        ⟨.SHA1, 6, 1, 30, strBytes "12345678901234567890", some "", ""⟩ 59) :=
  ⟨by decide, by decide,
   (verify_is_exact_string_match_of_current_code "287082" "12345678901234567890"
      59 _ (by decide) (by decide)).1⟩

/-- C6: `verify` fails with an error — never `Ok false` — when the secret
cannot form a valid RFC 6238 configuration or the clock reads before the
Unix epoch; these errors are distinct from the `Ok false` of a wrong
code. -/
theorem verify_fails_closed_on_config_or_clock (code secret : String) (now : Int) :
    ((strBytes secret).length < 16 → verify code secret now = .error .secretTooSmall) ∧
    (16 ≤ (strBytes secret).length → now < 0 →
      verify code secret now = .error .clockBeforeEpoch) ∧
    (∀ b : Bool, (strBytes secret).length < 16 ∨ now < 0 →
      verify code secret now ≠ .ok b) := by
  have herr1 : (strBytes secret).length < 16 →
      verify code secret now = .error .secretTooSmall := by
    intro h
    rw [verify_decomp, verifyTotp_eq]
    simp [h]
  have herr2 : 16 ≤ (strBytes secret).length → now < 0 →
      verify code secret now = .error .clockBeforeEpoch := by
    intro h16 hneg
    rw [verify_decomp, verifyTotp_eq]
    simp [Nat.not_lt.mpr h16, readClock, hneg]
  refine ⟨herr1, herr2, ?_⟩
  rintro b (h | h)
  · rw [herr1 h]; simp
  · by_cases h16 : (strBytes secret).length < 16
    · rw [herr1 h16]; simp
    · rw [herr2 (Nat.not_lt.mp h16) h]; simp

theorem verify_fails_closed_on_config_or_clock_witness :
    verify "123456" "short" 0 = .error .secretTooSmall ∧
    verify "123456" "12345678901234567890" (-5) = .error .clockBeforeEpoch :=
  ⟨(verify_fails_closed_on_config_or_clock "123456" "short" 0).1 (by decide),
   (verify_fails_closed_on_config_or_clock "123456" "12345678901234567890" (-5)).2.1
      (by decide) (by decide)⟩

/-- C9: two computations of the expected code, and two calls to `verify`
with the same code and secret, performed at any two times in the same
30-second window, give identical codes and identical results. -/
theorem verify_deterministic_within_step (code secret : String) (t1 t2 : Int)
    (h1 : 0 ≤ t1) (h2 : 0 ≤ t2) (hstep : t1.toNat / 30 = t2.toNat / 30) :
    hotpCode (strBytes secret) (t1.toNat / 30) 6 =
      hotpCode (strBytes secret) (t2.toNat / 30) 6 ∧
    verify code secret t1 = verify code secret t2 := by
  refine ⟨by rw [hstep], ?_⟩
  by_cases hlen : (strBytes secret).length < 16
  · rw [verify_decomp, verify_decomp, verifyTotp_eq]
    simp [hlen]
  · have h16 := Nat.not_lt.mp hlen
    rw [verify_eq code secret t1 h16 h1, verify_eq code secret t2 h16 h2, hstep]

theorem verify_deterministic_within_step_witness :
    (61 : Int).toNat / 30 = (75 : Int).toNat / 30 ∧
    hotpCode (strBytes "12345678901234567890") ((61 : Int).toNat / 30) 6 =
      hotpCode (strBytes "12345678901234567890") ((75 : Int).toNat / 30) 6 ∧
    verify "000000" "12345678901234567890" 61 =
      verify "000000" "12345678901234567890" 75 :=
  have h := verify_deterministic_within_step "000000" "12345678901234567890" 61 75
    (by decide) (by decide) (by decide)
  ⟨by decide, h.1, h.2⟩

/-- C10: `verify` never returns an error because of the code argument —
for every code string whatsoever, if the secret forms a valid configuration
and the clock reads at or after the epoch, the result is `Ok` of a boolean
(false on mismatch); the code string is never parsed or validated. -/
theorem verify_never_errors_on_code (code secret : String) (now : Int) (totp : TOTP)
    (hcfg : verifyTotp secret = .ok totp) (hclk : 0 ≤ now) :
    ∃ b : Bool, verify code secret now = .ok b ∧
      (b = true ↔ code = totp.generate now.toNat) := by
  obtain ⟨h16, htot⟩ := verifyTotp_ok_elim secret totp hcfg
  subst htot
  refine ⟨_, verify_eq code secret now h16 hclk, ?_⟩
  simp [TOTP.generate]

theorem verify_never_errors_on_code_witness :
    verifyTotp "12345678901234567890" =
      .ok ⟨.SHA1, 6, 1, 30, strBytes "12345678901234567890", some "", ""⟩ ∧
    (0 : Int) ≤ 100 ∧
    ∃ b : Bool, verify "not a numeric code" "12345678901234567890" 100 = .ok b ∧
      (b = true ↔ "not a numeric code" = TOTP.generate
        ⟨.SHA1, 6, 1, 30, strBytes "12345678901234567890", some "", ""⟩ 100) :=
  ⟨by decide, by decide,
   verify_never_errors_on_code "not a numeric code" "12345678901234567890" 100 _
      (by decide) (by decide)⟩

/-- C2: both `generate` and `verify` feed the UTF-8 bytes of the hex secret
string — not the 32 raw random bytes — into the RFC 6238 configuration: the
secret material of every configuration either builds is exactly the byte
sequence of the secret string, which for a 32-byte random draw is 64 bytes
and never the raw draw itself. -/
theorem secret_material_is_hex_string_bytes :
    (∀ (secret : String) (totp : TOTP),
       verifyTotp secret = .ok totp → totp.secret = strBytes secret) ∧
    (∀ (issuer account_name : String) (random_bytes : List Nat) (totp : TOTP),
       generateTotp issuer account_name random_bytes = .ok totp →
       totp.secret = strBytes (generate_random_string random_bytes)) ∧
    (∀ random_bytes : List Nat, random_bytes.length = 32 →
       (∀ b ∈ random_bytes, b < 256) →
       (strBytes (generate_random_string random_bytes)).length = 64 ∧
       strBytes (generate_random_string random_bytes) ≠ random_bytes) := by
  refine ⟨?_, ?_, ?_⟩
  · intro secret totp h
    obtain ⟨-, rfl⟩ := verifyTotp_ok_elim secret totp h
    rfl
  · intro iss acc rb totp h
    obtain ⟨-, rfl⟩ := generateTotp_ok_elim iss acc rb totp h
    rfl
  · intro rb hlen hb
    have hl := strBytes_grs_length rb hb
    refine ⟨by rw [hl, hlen], ?_⟩
    intro heq
    have hlen2 := congrArg List.length heq
    rw [hl] at hlen2
    omega

theorem secret_material_is_hex_string_bytes_witness :
    verifyTotp "12345678901234567890" =
      .ok ⟨.SHA1, 6, 1, 30, strBytes "12345678901234567890", some "", ""⟩ ∧
    (TOTP.secret ⟨.SHA1, 6, 1, 30, strBytes "12345678901234567890", some "", ""⟩ =
      strBytes "12345678901234567890") ∧
    (List.range 32).length = 32 ∧
    (strBytes (generate_random_string (List.range 32))).length = 64 :=
  ⟨by decide, secret_material_is_hex_string_bytes.1 "12345678901234567890" _ (by decide),
   by decide,
   (secret_material_is_hex_string_bytes.2.2 (List.range 32) (by decide) (by decide)).1⟩

/-- C3: round-trip — for every secret produced by a successful `generate`,
the TOTP code computed for it (hex-string bytes, 6 digits, 30-second step,
SHA-1) at a time in the current step verifies to `Ok true` at any time in
the same 30-second step. -/
theorem generate_verify_round_trip
    (issuer account_name : String) (random_bytes : List Nat)
    (get_qr_base64 : TOTP → Except String String) (img s : String) (t1 t2 : Int)
    (hgen : generate issuer account_name random_bytes get_qr_base64 = .ok (img, s))
    (_h1 : 0 ≤ t1) (h2 : 0 ≤ t2) (hstep : t1.toNat / 30 = t2.toNat / 30) :
    verify (hotpCode (strBytes s) (t1.toNat / 30) 6) s t2 = .ok true := by
  obtain ⟨hs, totp, hg, -⟩ := generate_ok_elim _ _ _ _ _ _ hgen
  obtain ⟨h16, -⟩ := generateTotp_ok_elim _ _ _ _ hg
  rw [← hs] at h16
  rw [verify_eq _ s t2 h16 h2, hstep]
  simp

theorem generate_verify_round_trip_witness :
    generate "Iss" "Acct" (List.range 32) (fun _ => .ok "QR") =
      .ok ("QR", generate_random_string (List.range 32)) ∧
    (0 : Int) ≤ 59 ∧ (0 : Int) ≤ 45 ∧ (59 : Int).toNat / 30 = (45 : Int).toNat / 30 ∧
    verify (hotpCode (strBytes (generate_random_string (List.range 32)))
        ((59 : Int).toNat / 30) 6) (generate_random_string (List.range 32)) 45 =
      .ok true :=
  ⟨by decide, by decide, by decide, by decide,
   generate_verify_round_trip "Iss" "Acct" (List.range 32) (fun _ => .ok "QR") "QR"
      (generate_random_string (List.range 32)) 59 45 (by decide) (by decide) (by decide)
      (by decide)⟩

/-- C4: for every invocation and every value drawn from the random source,
`generate_random_string` returns a string of exactly 64 characters from
`[0-9a-f]`, namely the zero-padded lowercase hex encoding — two characters
per byte — of the 32 random bytes (witnessed by decoding back). -/
theorem generate_random_string_spec (random_bytes : List Nat)
    (hlen : random_bytes.length = 32) (hb : ∀ b ∈ random_bytes, b < 256) :
    (generate_random_string random_bytes).length = 64 ∧
    (∀ c ∈ (generate_random_string random_bytes).data, isHexDigit c = true) ∧
    hexDecode (generate_random_string random_bytes).data = random_bytes := by
  refine ⟨?_, ?_, ?_⟩
  · show ((random_bytes.map byteToHex).flatten).length = 64
    rw [flatten_map_byteToHex_length, hlen]
  · intro c hc
    rw [grs_data] at hc
    obtain ⟨n, hn, rfl⟩ := mem_flatten_byteToHex _ hb c hc
    exact hexDigitChar_isHexDigit n hn
  · rw [grs_data]
    exact hexDecode_flatten_map_byteToHex _ hb

theorem generate_random_string_spec_witness :
    (List.range 32).length = 32 ∧
    (generate_random_string (List.range 32)).length = 64 ∧
    hexDecode (generate_random_string (List.range 32)).data = List.range 32 :=
  have h := generate_random_string_spec (List.range 32) (by decide) (by decide)
  ⟨by decide, h.1, h.2.2⟩

/-- C5: zero-tolerance time window — `verify` compares the submitted code
only against the code of the single current 30-second step: a code that is
the valid code of step `n` is rejected (`Ok false`) at any time in step
`n + 1` whose expected code differs. -/
theorem verify_zero_tolerance_window (secret : String) (t1 t2 : Int) (totp : TOTP)
    (hcfg : verifyTotp secret = .ok totp) (_h1 : 0 ≤ t1) (h2 : 0 ≤ t2)
    (_hadj : t2.toNat / 30 = t1.toNat / 30 + 1)
    (hdiff : totp.generate t1.toNat ≠ totp.generate t2.toNat) :
    verify (totp.generate t1.toNat) secret t2 = .ok false := by
  obtain ⟨h16, rfl⟩ := verifyTotp_ok_elim secret totp hcfg
  rw [verify_eq _ secret t2 h16 h2]
  simp only [TOTP.generate] at hdiff ⊢
  rw [beq_eq_false_iff_ne.mpr hdiff]

theorem verify_zero_tolerance_window_witness :
    (60 : Int).toNat / 30 = (59 : Int).toNat / 30 + 1 ∧
    TOTP.generate ⟨.SHA1, 6, 1, 30, strBytes "12345678901234567890", some "", ""⟩
        (59 : Int).toNat ≠
      TOTP.generate ⟨.SHA1, 6, 1, 30, strBytes "12345678901234567890", some "", ""⟩
        (60 : Int).toNat ∧
    verify (TOTP.generate ⟨.SHA1, 6, 1, 30, strBytes "12345678901234567890", some "", ""⟩
        (59 : Int).toNat) "12345678901234567890" 60 = .ok false :=
  have hd : TOTP.generate
      (⟨.SHA1, 6, 1, 30, strBytes "12345678901234567890", some "", ""⟩ : TOTP)
        (59 : Int).toNat ≠
      TOTP.generate (⟨.SHA1, 6, 1, 30, strBytes "12345678901234567890", some "", ""⟩ : TOTP)
        (60 : Int).toNat := by decide
  ⟨by decide, hd,
   verify_zero_tolerance_window "12345678901234567890" 59 60 _ (by decide) (by decide)
      (by decide) (by decide) hd⟩

/-- C7: on success `generate` returns the pair (base64 QR image, secret)
where the secret is exactly the hex string whose bytes built the
configuration; on any configuration or QR-rendering error it returns an
error and no pair (fails closed). -/
theorem generate_success_shape_and_fails_closed
    (issuer account_name : String) (random_bytes : List Nat)
    (get_qr_base64 : TOTP → Except String String) :
    (∀ img s, generate issuer account_name random_bytes get_qr_base64 = .ok (img, s) →
       s = generate_random_string random_bytes ∧
       ∃ totp, generateTotp issuer account_name random_bytes = .ok totp ∧
         totp.secret = strBytes s ∧ get_qr_base64 totp = .ok img) ∧
    (∀ e, generateTotp issuer account_name random_bytes = .error e →
       generate issuer account_name random_bytes get_qr_base64 = .error e) ∧
    (∀ totp e, generateTotp issuer account_name random_bytes = .ok totp →
       get_qr_base64 totp = .error e →
       generate issuer account_name random_bytes get_qr_base64 =
         .error (.qrError e)) := by
  refine ⟨?_, ?_, ?_⟩
  · intro img s h
    obtain ⟨hs, totp, hg, hq⟩ := generate_ok_elim _ _ _ _ _ _ h
    obtain ⟨-, rfl⟩ := generateTotp_ok_elim _ _ _ _ hg
    exact ⟨hs, _, hg, by rw [hs], hq⟩
  · intro e he
    rw [generate_decomp, he]
  · intro totp e hg hq
    rw [generate_decomp, hg]
    dsimp only
    rw [hq]

theorem generate_success_shape_and_fails_closed_witness :
    generateTotp "Iss" "Acct" (List.range 32) =
      .ok ⟨.SHA1, 6, 1, 30, strBytes (generate_random_string (List.range 32)),
           some "Iss", "Acct"⟩ ∧
    generate "Iss" "Acct" (List.range 32) (fun _ => .error "render failed") =
      .error (.qrError "render failed") :=
  ⟨by decide,
   (generate_success_shape_and_fails_closed "Iss" "Acct" (List.range 32)
      (fun _ => .error "render failed")).2.2
      ⟨.SHA1, 6, 1, 30, strBytes (generate_random_string (List.range 32)),
       some "Iss", "Acct"⟩ "render failed" (by decide) rfl⟩

/-- C8: every configuration constructed by `generate` and by `verify` has
digit count 6, a 30-second step, the SHA-1 algorithm, and starting epoch 0
(its token at time `t` is the HOTP value of counter `⌊(t − 0) / 30⌋`). -/
theorem totp_config_defaults :
    (∀ (secret : String) (totp : TOTP), verifyTotp secret = .ok totp →
       totp.digits = 6 ∧ totp.step = 30 ∧ totp.algorithm = .SHA1 ∧
       ∀ time, totp.generate time = hotpCode totp.secret ((time - 0) / 30) 6) ∧
    (∀ (issuer account_name : String) (random_bytes : List Nat) (totp : TOTP),
       generateTotp issuer account_name random_bytes = .ok totp →
       totp.digits = 6 ∧ totp.step = 30 ∧ totp.algorithm = .SHA1 ∧
       ∀ time, totp.generate time = hotpCode totp.secret ((time - 0) / 30) 6) := by
  constructor
  · intro secret totp h
    obtain ⟨-, rfl⟩ := verifyTotp_ok_elim secret totp h
    exact ⟨rfl, rfl, rfl, fun time => by simp [TOTP.generate]⟩
  · intro iss acc rb totp h
    obtain ⟨-, rfl⟩ := generateTotp_ok_elim iss acc rb totp h
    exact ⟨rfl, rfl, rfl, fun time => by simp [TOTP.generate]⟩

theorem totp_config_defaults_witness :
    verifyTotp "12345678901234567890" =
      .ok ⟨.SHA1, 6, 1, 30, strBytes "12345678901234567890", some "", ""⟩ ∧
    (TOTP.digits ⟨.SHA1, 6, 1, 30, strBytes "12345678901234567890", some "", ""⟩ = 6 ∧
     TOTP.step ⟨.SHA1, 6, 1, 30, strBytes "12345678901234567890", some "", ""⟩ = 30 ∧
     TOTP.algorithm ⟨.SHA1, 6, 1, 30, strBytes "12345678901234567890", some "", ""⟩ =
       .SHA1 ∧
     ∀ time, TOTP.generate ⟨.SHA1, 6, 1, 30, strBytes "12345678901234567890", some "", ""⟩
        time = hotpCode (TOTP.secret
          ⟨.SHA1, 6, 1, 30, strBytes "12345678901234567890", some "", ""⟩)
          ((time - 0) / 30) 6) :=
  ⟨by decide, totp_config_defaults.1 "12345678901234567890" _ (by decide)⟩

end Mfa
